import Mathlib

/-!
# Shallow embedding of the Walmart shipping-data processor

This file embeds the core logic of `populate_database.py`
(`ShippingDataProcessor`) in Lean 4 and proves the spec's claims about it.

Modelling conventions:
* A pandas cell is a `Cell`: a present string value, a missing value (`NaN`,
  which Python's `str()` renders as the literal text `"nan"`), or an absent
  column (access raises `KeyError`).
* The quantity cell of Source A is a `QtyCell`: either a value that
  `int(...)` converts successfully, or one on which `int(...)` raises.
* The MySQL store plus the in-memory `product_name_to_id` cache is a
  `DBState`: the `product` table rows, the `shipment` table rows, the cache
  association list, and the auto-increment counter for `product.id`.
* Exceptions that the source catches per row are modelled by the row
  processor leaving the shipment table unchanged; the exception raised by
  `DataFrame.to_dict(orient='index')` on a non-unique index (which the
  source does NOT catch inside the per-row loop) is modelled by
  `route_mapping` returning `none`.
-/

/-- A cell of a pandas row: a present string, a missing value (NaN), or an
absent column (raising `KeyError` on access). -/
inductive Cell where
  | val (s : String)
  | nan
  | missing
deriving DecidableEq, Repr

/-- `str(row[col])` for a `Cell`: `none` models the `KeyError` raised when the
column is absent; pandas renders a missing value as the float NaN, whose
`str()` is the literal `"nan"`. -/
def Cell.pyStr : Cell → Option String
  | .val s => some s
  | .nan => some "nan"
  | .missing => none

/-- The `product_quantity` cell of a Source-A row: `num n` is a value that
`int(...)` converts to the integer `n`; `bad` is a value (non-numeric text,
NaN, or absent column) on which `int(row['product_quantity'])` raises. -/
inductive QtyCell where
  | num (n : Int)
  | bad
deriving DecidableEq, Repr

/-- `int(row['product_quantity'])`: `none` models the raised exception. -/
def QtyCell.parseInt : QtyCell → Option Int
  | .num n => some n
  | .bad => none

/-- Drop leading whitespace characters from a character list. -/
def stripLeading : List Char → List Char
  | [] => []
  | c :: cs => if c.isWhitespace then stripLeading cs else c :: cs

/-- Python's `str.strip()`: remove leading and trailing whitespace. -/
def pyStrip (s : String) : String :=
  ⟨((stripLeading s.data).reverse |> stripLeading).reverse⟩

/-- One row of `shipping_data_0.csv` (Source A). -/
structure RecordA where
  product : Cell
  product_quantity : QtyCell
  origin_warehouse : Cell
  destination_store : Cell
deriving DecidableEq, Repr

/-- One row of `shipping_data_1.csv` (Source B): one line item of a shipment. -/
structure RecordB where
  shipment_identifier : String
  product : String
deriving DecidableEq, Repr

/-- The grouping key used by `df1.groupby(['shipment_identifier', 'product'])`. -/
def RecordB.key (r : RecordB) : String × String :=
  (r.shipment_identifier, r.product)

/-- One row of `shipping_data_2.csv` (Source C): a shipment's route. -/
structure RecordC where
  shipment_identifier : String
  origin_warehouse : String
  destination_store : String
deriving DecidableEq, Repr

/-- One row of the `shipment` table (the auto-increment `id` column is kept
implicit: rows are stored in insertion order and never referenced by id). -/
structure Shipment where
  product_id : Nat
  quantity : Int
  origin : String
  destination : String
deriving DecidableEq, Repr

/-- The store plus the processor's in-memory state: the `product` table as
(id, name) rows in insertion order, the `shipment` table rows in insertion
order, the `product_name_to_id` cache, and the next auto-increment id of
`product`. -/
structure DBState where
  products : List (Nat × String)
  shipments : List Shipment
  cache : List (String × Nat)
  nextId : Nat
deriving DecidableEq, Repr

/-- The state right after `create_tables` on a fresh database: both tables
empty, cache empty, MySQL auto-increment starting at 1. -/
def emptyState : DBState :=
  { products := [], shipments := [], cache := [], nextId := 1 }

/-- `ShippingDataProcessor.get_or_create_product_id`: check the cache, else
query the `product` table by exact name, else insert a new product row and
take `lastrowid`; cache the result in every branch that missed. -/
def get_or_create_product_id (s : DBState) (product_name : String) :
    Nat × DBState :=
  match s.cache.lookup product_name with
  | some cached => (cached, s)
  | none =>
    match s.products.find? (fun p => p.2 == product_name) with
    | some p => (p.1, { s with cache := (product_name, p.1) :: s.cache })
    | none =>
      (s.nextId,
        { s with
          products := s.products ++ [(s.nextId, product_name)]
          cache := (product_name, s.nextId) :: s.cache
          nextId := s.nextId + 1 })

/-- The body of the per-row loop of `process_shipping_data_0`: compute
`str(row['product']).strip()`, then `int(row['product_quantity'])`, then
resolve the product id, then insert one shipment row whose origin and
destination are `str(row['origin_warehouse'])` and
`str(row['destination_store'])`. Any exception along the way is caught and
the loop continues with the next row; state changes already made (a product
created before a later `KeyError`) persist. -/
def processRow0 (s : DBState) (row : RecordA) : DBState :=
  match row.product.pyStr with
  | none => s
  | some raw_name =>
    let product_name := pyStrip raw_name
    match row.product_quantity.parseInt with
    | none => s
    | some quantity =>
      let res := get_or_create_product_id s product_name
      match row.origin_warehouse.pyStr, row.destination_store.pyStr with
      | some origin, some destination =>
        { res.2 with
          shipments := res.2.shipments ++
            [{ product_id := res.1, quantity := quantity,
               origin := origin, destination := destination }] }
      | _, _ => res.2

/-- Whether the per-row loop body inserts a shipment row for `row`: all four
accesses succeed and the quantity parses. -/
def rowInserts (row : RecordA) : Bool :=
  row.product.pyStr.isSome && row.product_quantity.parseInt.isSome &&
    row.origin_warehouse.pyStr.isSome && row.destination_store.pyStr.isSome

/-- `process_shipping_data_0`: iterate the per-row loop over the frame. -/
def process_shipping_data_0 (s : DBState) (df : List RecordA) : DBState :=
  df.foldl processRow0 s

/-- `df2.set_index('shipment_identifier')[['origin_warehouse',
'destination_store']].to_dict('index')`: pandas raises `ValueError`
("DataFrame index must be unique for orient='index'") when the same
`shipment_identifier` occurs twice, modelled as `none`; otherwise the
mapping from each identifier to its (origin, destination) pair. -/
def route_mapping (df2 : List RecordC) :
    Option (List (String × String × String)) :=
  if (df2.map RecordC.shipment_identifier).Nodup then
    some (df2.map (fun r =>
      (r.shipment_identifier, r.origin_warehouse, r.destination_store)))
  else none

/-- `df1.groupby(['shipment_identifier', 'product']).size().reset_index(...)`:
one tuple per distinct (shipment_identifier, product) pair, whose quantity
is the number of rows of the group. Group order is first-occurrence order;
the claims do not depend on the order of the tuples. -/
def shipment_products (df1 : List RecordB) : List (String × String × Nat) :=
  ((df1.map RecordB.key).dedup).map
    (fun k => (k.1, k.2, df1.countP (fun r => r.key == k)))

/-- The body of the per-tuple loop of `process_shipping_data_1_and_2`: look
the shipment identifier up in the route map, falling back to the sentinel
strings on a miss; resolve the stripped product name; insert one shipment
row. Nothing in this body raises. -/
def processTuple (m : List (String × String × String)) (s : DBState)
    (t : String × String × Nat) : DBState :=
  let shipment_id := t.1
  let product_name := pyStrip t.2.1
  let quantity : Int := (t.2.2 : Int)
  let route := m.lookup shipment_id
  let origin := match route with
    | some od => od.1
    | none => "Unknown Origin"
  let destination := match route with
    | some od => od.2
    | none => "Unknown Destination"
  let res := get_or_create_product_id s product_name
  { res.2 with
    shipments := res.2.shipments ++
      [{ product_id := res.1, quantity := quantity,
         origin := origin, destination := destination }] }

/-- `process_shipping_data_1_and_2`: build the route map (a `ValueError`
there propagates out of the function, modelled as `none`), aggregate source
B, and run the per-tuple loop. -/
def process_shipping_data_1_and_2 (s : DBState) (df1 : List RecordB)
    (df2 : List RecordC) : Option DBState :=
  match route_mapping df2 with
  | none => none
  | some m => some ((shipment_products df1).foldl (processTuple m) s)

/-- `main`'s processing sequence starting from a fresh database: Path A runs
and commits first; if Path B then fails fatally (route-map construction
raising), the committed Path-A state is what remains in the store. -/
def runPipeline (dfA : List RecordA) (dfB : List RecordB)
    (dfC : List RecordC) : DBState :=
  let s1 := process_shipping_data_0 emptyState dfA
  match process_shipping_data_1_and_2 s1 dfB dfC with
  | none => s1
  | some s2 => s2

/-- `SELECT SUM(quantity) FROM shipment`: SQL `SUM` over an empty table is
`NULL` (`none`); otherwise the sum of the column. -/
def sqlSumQuantity (s : DBState) : Option Int :=
  match s.shipments with
  | [] => none
  | l => some ((l.map Shipment.quantity).sum)

/-- Python's `x or 0` applied to the fetched `SUM` result: `None` and `0`
are falsy and give `0`; any other value passes through. -/
def pyOrZero : Option Int → Int
  | none => 0
  | some v => if v = 0 then 0 else v

/-- The total summed quantity reported by `validate_data_insertion`:
`self.cursor.fetchone()[0] or 0` on the `SUM(quantity)` query. -/
def reportedTotalQuantity (s : DBState) : Int :=
  pyOrZero (sqlSumQuantity s)

/-- Cache consistency: every cached name is the name of some product row.
`get_or_create_product_id` preserves this, and it holds for `emptyState`. -/
def cacheConsistent (s : DBState) : Prop :=
  ∀ e ∈ s.cache, ∃ p ∈ s.products, p.2 = e.1

/-! ## Helper lemmas -/

/-- `get_or_create_product_id` never touches the `shipment` table. -/
theorem get_or_create_shipments_eq (s : DBState) (n : String) :
    ((get_or_create_product_id s n).2).shipments = s.shipments := by
  unfold get_or_create_product_id
  cases h : s.cache.lookup n with
  | some cached => rfl
  | none =>
    cases h2 : s.products.find? (fun p => p.2 == n) with
    | some p => rfl
    | none => rfl

/-- After a call for `n`, the cache resolves `n` to the returned id. -/
theorem get_or_create_cache_hit (s : DBState) (n : String) :
    ((get_or_create_product_id s n).2).cache.lookup n
      = some (get_or_create_product_id s n).1 := by
  unfold get_or_create_product_id
  cases h : s.cache.lookup n with
  | some cached => exact h
  | none =>
    cases h2 : s.products.find? (fun p => p.2 == n) with
    | some p => simp [List.lookup_cons]
    | none => simp [List.lookup_cons]

/-- A successful association-list lookup comes from a member entry. -/
theorem mem_of_lookup_eq_some {β : Type} {l : List (String × β)} {k : String}
    {v : β} (h : l.lookup k = some v) : (k, v) ∈ l := by
  induction l with
  | nil => simp at h
  | cons e es ih =>
    obtain ⟨k2, v2⟩ := e
    rw [List.lookup_cons] at h
    cases hbe : k == k2 with
    | true =>
      simp [hbe] at h
      subst h
      rw [eq_of_beq hbe]
      exact List.mem_cons_self _ _
    | false =>
      simp [hbe] at h
      exact List.mem_cons_of_mem _ (ih h)

/-- On a cache-consistent state, resolving `n` leaves a product row named
`n` in the table. -/
theorem get_or_create_name_mem (s : DBState) (n : String)
    (hcc : cacheConsistent s) :
    ∃ p ∈ ((get_or_create_product_id s n).2).products, p.2 = n := by
  unfold get_or_create_product_id
  cases h : s.cache.lookup n with
  | some cached => simpa using hcc (n, cached) (mem_of_lookup_eq_some h)
  | none =>
    cases h2 : s.products.find? (fun p => p.2 == n) with
    | some p =>
      have hb := List.find?_some h2
      simp only [beq_iff_eq] at hb
      exact ⟨p, List.mem_of_find?_eq_some h2, hb⟩
    | none => exact ⟨(s.nextId, n), by simp, rfl⟩

/-- A fully valid Source-A row makes `processRow0` resolve the stripped
product name and append exactly one shipment row. -/
theorem processRow0_insert_eq (s : DBState) (row : RecordA) (raw_name : String)
    (q : Int) (o d : String)
    (hp : row.product.pyStr = some raw_name)
    (hq : row.product_quantity.parseInt = some q)
    (ho : row.origin_warehouse.pyStr = some o)
    (hd : row.destination_store.pyStr = some d) :
    processRow0 s row =
      { (get_or_create_product_id s (pyStrip raw_name)).2 with
        shipments := s.shipments ++
          [{ product_id := (get_or_create_product_id s (pyStrip raw_name)).1,
             quantity := q, origin := o, destination := d }] } := by
  unfold processRow0
  rw [hp, hq, ho, hd]
  simp only [get_or_create_shipments_eq]

/-- `processTuple` appends exactly one shipment row, with the sentinel
origin/destination exactly when the route lookup misses. -/
theorem processTuple_eq (m : List (String × String × String)) (s : DBState)
    (t : String × String × Nat) :
    processTuple m s t =
      { (get_or_create_product_id s (pyStrip t.2.1)).2 with
        shipments := s.shipments ++
          [{ product_id := (get_or_create_product_id s (pyStrip t.2.1)).1,
             quantity := (t.2.2 : Int),
             origin := match m.lookup t.1 with
               | some od => od.1
               | none => "Unknown Origin",
             destination := match m.lookup t.1 with
               | some od => od.2
               | none => "Unknown Destination" }] } := by
  unfold processTuple
  simp only [get_or_create_shipments_eq]

/-! ## Claims -/

/-- C2: product resolution is idempotent: a second
`get_or_create_product_id` call for the same name returns the same id,
leaves the state unchanged, and in particular inserts no further row into
the `product` table. -/
theorem get_or_create_product_id_idempotent (s : DBState)
    (product_name : String) :
    (get_or_create_product_id
        (get_or_create_product_id s product_name).2 product_name).1
      = (get_or_create_product_id s product_name).1
    ∧ (get_or_create_product_id
        (get_or_create_product_id s product_name).2 product_name).2
      = (get_or_create_product_id s product_name).2
    ∧ ((get_or_create_product_id
        (get_or_create_product_id s product_name).2 product_name).2).products
      = ((get_or_create_product_id s product_name).2).products := by
  have hhit := get_or_create_cache_hit s product_name
  generalize hres : get_or_create_product_id s product_name = res at hhit ⊢
  obtain ⟨i, s1⟩ := res
  unfold get_or_create_product_id
  simp only at hhit
  simp [hhit]

/-- C4: a fully valid Source-A row (all four fields present, quantity
parseable) makes Path A insert exactly one shipment row with the parsed
quantity, the product id resolved from the stripped product name, and the
origin/destination field texts. -/
theorem pathA_valid_row_inserts (s : DBState) (row : RecordA)
    (raw_name : String) (q : Int) (o d : String)
    (hp : row.product.pyStr = some raw_name)
    (hq : row.product_quantity.parseInt = some q)
    (ho : row.origin_warehouse.pyStr = some o)
    (hd : row.destination_store.pyStr = some d) :
    processRow0 s row =
      { (get_or_create_product_id s (pyStrip raw_name)).2 with
        shipments := s.shipments ++
          [{ product_id := (get_or_create_product_id s (pyStrip raw_name)).1,
             quantity := q, origin := o, destination := d }] } :=
  processRow0_insert_eq s row raw_name q o d hp hq ho hd

/-- Witness for C4 at a concrete row. -/
theorem pathA_valid_row_inserts_witness :
    processRow0 emptyState
        ⟨Cell.val " Widget ", QtyCell.num 12, Cell.val "W1", Cell.val "S1"⟩ =
      { (get_or_create_product_id emptyState (pyStrip " Widget ")).2 with
        shipments := emptyState.shipments ++
          [{ product_id :=
               (get_or_create_product_id emptyState (pyStrip " Widget ")).1,
             quantity := 12, origin := "W1", destination := "S1" }] } :=
  pathA_valid_row_inserts emptyState
    ⟨Cell.val " Widget ", QtyCell.num 12, Cell.val "W1", Cell.val "S1"⟩
    " Widget " 12 "W1" "S1" rfl rfl rfl rfl

/-- C5: an aggregated Source-B tuple whose shipment identifier is absent
from the route map is not skipped: Path B inserts a shipment row with the
sentinel origin "Unknown Origin" and destination "Unknown Destination". -/
theorem pathB_route_miss_sentinels (m : List (String × String × String))
    (s : DBState) (t : String × String × Nat)
    (h : m.lookup t.1 = none) :
    processTuple m s t =
      { (get_or_create_product_id s (pyStrip t.2.1)).2 with
        shipments := s.shipments ++
          [{ product_id := (get_or_create_product_id s (pyStrip t.2.1)).1,
             quantity := (t.2.2 : Int),
             origin := "Unknown Origin",
             destination := "Unknown Destination" }] } := by
  rw [processTuple_eq, h]

/-- Witness for C5 at a concrete tuple and an empty route map. -/
theorem pathB_route_miss_sentinels_witness :
    processTuple [] emptyState ("S7", "Gadget", 3) =
      { (get_or_create_product_id emptyState (pyStrip "Gadget")).2 with
        shipments := emptyState.shipments ++
          [{ product_id :=
               (get_or_create_product_id emptyState (pyStrip "Gadget")).1,
             quantity := ((3 : Nat) : Int),
             origin := "Unknown Origin",
             destination := "Unknown Destination" }] } :=
  pathB_route_miss_sentinels [] emptyState ("S7", "Gadget", 3) rfl

/-- C9: a Source-A row whose product cell is NaN is not skipped: `str()`
renders it as the text "nan", a product named "nan" is resolved (and hence
present in the product table, given cache consistency), and one shipment
row referencing it is inserted. -/
theorem pathA_nan_product_inserted (s : DBState) (row : RecordA) (q : Int)
    (o d : String)
    (hcc : cacheConsistent s)
    (hp : row.product = Cell.nan)
    (hq : row.product_quantity = QtyCell.num q)
    (ho : row.origin_warehouse.pyStr = some o)
    (hd : row.destination_store.pyStr = some d) :
    processRow0 s row =
      { (get_or_create_product_id s "nan").2 with
        shipments := s.shipments ++
          [{ product_id := (get_or_create_product_id s "nan").1,
             quantity := q, origin := o, destination := d }] }
    ∧ ∃ p ∈ ((get_or_create_product_id s "nan").2).products, p.2 = "nan" := by
  have hps : pyStrip "nan" = "nan" := rfl
  constructor
  · have h := processRow0_insert_eq s row "nan" q o d
      (by rw [hp]; rfl) (by rw [hq]; rfl) ho hd
    rwa [hps] at h
  · exact get_or_create_name_mem s "nan" hcc

/-- Witness for C9 at a concrete row on the fresh state. -/
theorem pathA_nan_product_inserted_witness :
    (processRow0 emptyState ⟨Cell.nan, QtyCell.num 2, Cell.val "W1", Cell.val "S1"⟩ =
      { (get_or_create_product_id emptyState "nan").2 with
        shipments := emptyState.shipments ++
          [{ product_id := (get_or_create_product_id emptyState "nan").1,
             quantity := 2, origin := "W1", destination := "S1" }] })
    ∧ ∃ p ∈ ((get_or_create_product_id emptyState "nan").2).products,
        p.2 = "nan" :=
  pathA_nan_product_inserted emptyState
    ⟨Cell.nan, QtyCell.num 2, Cell.val "W1", Cell.val "S1"⟩ 2 "W1" "S1"
    (by intro e he; cases he) rfl rfl rfl rfl

/-- In a duplicate-free list, the number of elements equal to `a` is 1 or 0
according to membership. -/
theorem countP_beq_of_nodup {α : Type} [BEq α] [LawfulBEq α] {l : List α}
    (a : α) (h : l.Nodup) :
    l.countP (fun x => x == a) = if a ∈ l then 1 else 0 := by
  induction l with
  | nil => simp
  | cons b bs ih =>
    rw [List.nodup_cons] at h
    rw [List.countP_cons, ih h.2]
    by_cases hab : b = a
    · subst hab
      simp [h.1]
    · have hba : ¬ a = b := fun he => hab he.symm
      simp [hab, hba]

/-- C1: the aggregator emits exactly one tuple per distinct
(shipment identifier, product) pair occurring in Source B, and each such
tuple's quantity is the number of Source-B rows of that group — a row
count, not a sum of any input field. -/
theorem shipment_products_one_per_group (df1 : List RecordB)
    (k : String × String) :
    (shipment_products df1).countP (fun t => (t.1, t.2.1) == k)
        = (if k ∈ df1.map RecordB.key then 1 else 0)
    ∧ ∀ t ∈ shipment_products df1, (t.1, t.2.1) = k →
        t.2.2 = df1.countP (fun r => r.key == k) := by
  constructor
  · unfold shipment_products
    rw [List.countP_map]
    have hcomp : ((fun t : String × String × Nat => (t.1, t.2.1) == k) ∘
        (fun k2 : String × String =>
          (k2.1, k2.2, df1.countP (fun r => r.key == k2))))
        = (fun k2 => k2 == k) := by
      funext k2
      simp [Function.comp]
    rw [hcomp, countP_beq_of_nodup k (List.nodup_dedup _)]
    simp [List.mem_dedup]
  · intro t ht hk
    unfold shipment_products at ht
    rw [List.mem_map] at ht
    obtain ⟨k2, hk2, rfl⟩ := ht
    simp only at hk
    rw [Prod.mk.eta] at hk
    subst hk
    rfl

/-- Witness for C1: three identical Source-B rows give quantity 3. -/
theorem shipment_products_one_per_group_witness :
    (("S100", "Gadget", 3) : String × String × Nat).2.2
      = ([⟨"S100", "Gadget"⟩, ⟨"S100", "Gadget"⟩, ⟨"S100", "Gadget"⟩] :
          List RecordB).countP (fun r => r.key == ("S100", "Gadget")) :=
  (shipment_products_one_per_group
      [⟨"S100", "Gadget"⟩, ⟨"S100", "Gadget"⟩, ⟨"S100", "Gadget"⟩]
      ("S100", "Gadget")).2
    ("S100", "Gadget", 3) (by decide) (by decide)

/-- With duplicate-free identifiers, lookup in the built route list finds
each record's pair. -/
theorem lookup_route_of_nodup (df2 : List RecordC) (r : RecordC)
    (hnd : (df2.map RecordC.shipment_identifier).Nodup) (hr : r ∈ df2) :
    (df2.map (fun c => (c.shipment_identifier,
        c.origin_warehouse, c.destination_store))).lookup r.shipment_identifier
      = some (r.origin_warehouse, r.destination_store) := by
  induction df2 with
  | nil => cases hr
  | cons c cs ih =>
    rw [List.map_cons, List.nodup_cons] at hnd
    rw [List.map_cons, List.lookup_cons]
    rcases List.mem_cons.mp hr with rfl | hr2
    · simp
    · have hne : (r.shipment_identifier == c.shipment_identifier) = false := by
        rw [beq_eq_false_iff_ne]
        intro he
        exact hnd.1 (he ▸ List.mem_map_of_mem RecordC.shipment_identifier hr2)
      rw [hne]
      exact ih hnd.2 hr2

/-- C3 counterexample: when the same shipment identifier appears twice in
Source C, route-map construction does not succeed with a last-write-wins
binding — it fails (pandas raises `ValueError`). -/
theorem route_mapping_duplicate_fails :
    route_mapping [⟨"S1", "WA", "DA"⟩, ⟨"S1", "WB", "DB"⟩] = none
    ∧ ¬ ∃ m, route_mapping [⟨"S1", "WA", "DA"⟩, ⟨"S1", "WB", "DB"⟩] = some m
        ∧ m.lookup "S1" = some ("WB", "DB") := by
  constructor
  · decide
  · rintro ⟨m, hm, _⟩
    rw [show route_mapping [⟨"S1", "WA", "DA"⟩, ⟨"S1", "WB", "DB"⟩] = none
      from by decide] at hm
    cases hm

/-- C3 (amended): when all Source-C identifiers are distinct, route-map
construction succeeds and binds each identifier to its record's
(origin, destination) pair; a repeated identifier instead makes the
construction raise. -/
theorem route_mapping_nodup_lookup (df2 : List RecordC) (r : RecordC)
    (hnd : (df2.map RecordC.shipment_identifier).Nodup) (hr : r ∈ df2) :
    ∃ m, route_mapping df2 = some m
      ∧ m.lookup r.shipment_identifier
          = some (r.origin_warehouse, r.destination_store) := by
  refine ⟨_, ?_, lookup_route_of_nodup df2 r hnd hr⟩
  simp [route_mapping, hnd]

/-- Witness for C3 at two distinct identifiers. -/
theorem route_mapping_nodup_lookup_witness :
    ∃ m, route_mapping [⟨"S1", "WA", "DA"⟩, ⟨"S2", "WB", "DB"⟩] = some m
      ∧ m.lookup (RecordC.shipment_identifier ⟨"S2", "WB", "DB"⟩)
          = some ("WB", "DB") :=
  route_mapping_nodup_lookup [⟨"S1", "WA", "DA"⟩, ⟨"S2", "WB", "DB"⟩]
    ⟨"S2", "WB", "DB"⟩ (by decide) (by decide)

/-- `get_or_create_product_id` either leaves the product table unchanged or
appends one row whose name is not yet present. -/
theorem get_or_create_products_cases (s : DBState) (n : String) :
    ((get_or_create_product_id s n).2).products = s.products
    ∨ (((get_or_create_product_id s n).2).products
          = s.products ++ [(s.nextId, n)]
        ∧ ∀ p ∈ s.products, p.2 ≠ n) := by
  unfold get_or_create_product_id
  cases h : s.cache.lookup n with
  | some cached => exact Or.inl rfl
  | none =>
    cases h2 : s.products.find? (fun p => p.2 == n) with
    | some p => exact Or.inl rfl
    | none =>
      refine Or.inr ⟨rfl, ?_⟩
      intro p hp
      have hnp := List.find?_eq_none.mp h2 p hp
      simpa using hnp

/-- Resolving a product preserves distinctness of the product names. -/
theorem get_or_create_names_nodup (s : DBState) (n : String)
    (h : (s.products.map Prod.snd).Nodup) :
    ((((get_or_create_product_id s n).2).products).map Prod.snd).Nodup := by
  rcases get_or_create_products_cases s n with he | ⟨he, hnotin⟩
  · rw [he]; exact h
  · rw [he, List.map_append, List.nodup_append]
    refine ⟨h, List.nodup_singleton _, ?_⟩
    intro x hx hx2
    simp only [List.map_cons, List.map_nil, List.mem_singleton] at hx2
    subst hx2
    rw [List.mem_map] at hx
    obtain ⟨p, hp, hpn⟩ := hx
    exact hnotin p hp hpn

/-- One Path-A row preserves distinctness of the product names. -/
theorem processRow0_names_nodup (s : DBState) (row : RecordA)
    (h : (s.products.map Prod.snd).Nodup) :
    (((processRow0 s row).products).map Prod.snd).Nodup := by
  unfold processRow0
  cases hp : row.product.pyStr with
  | none => exact h
  | some raw =>
    cases hq : row.product_quantity.parseInt with
    | none => exact h
    | some q =>
      cases ho : row.origin_warehouse.pyStr with
      | none =>
        cases hd : row.destination_store.pyStr with
        | none => exact get_or_create_names_nodup s _ h
        | some d => exact get_or_create_names_nodup s _ h
      | some o =>
        cases hd : row.destination_store.pyStr with
        | none => exact get_or_create_names_nodup s _ h
        | some d => exact get_or_create_names_nodup s _ h

/-- One Path-B tuple preserves distinctness of the product names. -/
theorem processTuple_names_nodup (m : List (String × String × String))
    (s : DBState) (t : String × String × Nat)
    (h : (s.products.map Prod.snd).Nodup) :
    (((processTuple m s t).products).map Prod.snd).Nodup := by
  rw [processTuple_eq]
  exact get_or_create_names_nodup s _ h

/-- All of Path A preserves distinctness of the product names. -/
theorem process_shipping_data_0_names_nodup (df : List RecordA) (s : DBState)
    (h : (s.products.map Prod.snd).Nodup) :
    (((process_shipping_data_0 s df).products).map Prod.snd).Nodup := by
  induction df generalizing s with
  | nil => exact h
  | cons r rs ih => exact ih (processRow0 s r) (processRow0_names_nodup s r h)

/-- The Path-B tuple loop preserves distinctness of the product names. -/
theorem foldTuples_names_nodup (m : List (String × String × String))
    (ts : List (String × String × Nat)) (s : DBState)
    (h : (s.products.map Prod.snd).Nodup) :
    ((((ts.foldl (processTuple m) s)).products).map Prod.snd).Nodup := by
  induction ts generalizing s with
  | nil => exact h
  | cons t ts2 ih =>
    exact ih (processTuple m s t) (processTuple_names_nodup m s t h)

/-- C6: after a whole pipeline run from an empty product table, no two
product rows share a name — resolution never inserts a name twice. -/
theorem run_product_names_unique (dfA : List RecordA) (dfB : List RecordB)
    (dfC : List RecordC) :
    (((runPipeline dfA dfB dfC).products).map Prod.snd).Nodup := by
  have h1 : (((process_shipping_data_0 emptyState dfA).products).map
      Prod.snd).Nodup :=
    process_shipping_data_0_names_nodup dfA emptyState (by simp [emptyState])
  unfold runPipeline process_shipping_data_1_and_2
  cases hrm : route_mapping dfC with
  | none => exact h1
  | some m => exact foldTuples_names_nodup m (shipment_products dfB) _ h1

/-- A row that fails any field access or the quantity parse inserts no
shipment row. -/
theorem processRow0_shipments_skip (s : DBState) (row : RecordA)
    (h : rowInserts row = false) :
    (processRow0 s row).shipments = s.shipments := by
  unfold processRow0
  cases hp : row.product.pyStr with
  | none => rfl
  | some raw =>
    cases hq : row.product_quantity.parseInt with
    | none => rfl
    | some q =>
      cases ho : row.origin_warehouse.pyStr with
      | none =>
        cases hd : row.destination_store.pyStr with
        | none => exact get_or_create_shipments_eq s _
        | some d => exact get_or_create_shipments_eq s _
      | some o =>
        cases hd : row.destination_store.pyStr with
        | none => exact get_or_create_shipments_eq s _
        | some d =>
          rw [rowInserts, hp, hq, ho, hd] at h
          simp at h

/-- Each Path-A row adds one shipment row if fully valid, none otherwise. -/
theorem processRow0_shipments_length (s : DBState) (row : RecordA) :
    (processRow0 s row).shipments.length
      = s.shipments.length + (if rowInserts row then 1 else 0) := by
  cases hri : rowInserts row with
  | false => rw [processRow0_shipments_skip s row hri]; simp
  | true =>
    have h2 := hri
    rw [rowInserts] at h2
    simp only [Bool.and_eq_true, Option.isSome_iff_exists] at h2
    obtain ⟨⟨⟨⟨raw, hp⟩, q, hq⟩, o, ho⟩, d, hd⟩ := h2
    rw [processRow0_insert_eq s row raw q o d hp hq ho hd]
    simp

/-- Path A inserts exactly one shipment row per fully valid input row. -/
theorem process_shipping_data_0_length (df : List RecordA) (s : DBState) :
    (process_shipping_data_0 s df).shipments.length
      = s.shipments.length + df.countP rowInserts := by
  induction df generalizing s with
  | nil => simp [process_shipping_data_0]
  | cons r rs ih =>
    unfold process_shipping_data_0 at *
    rw [List.foldl_cons, ih (processRow0 s r), processRow0_shipments_length,
      List.countP_cons]
    cases rowInserts r <;> (simp; try omega)

/-- C7: a bad Source-A row (any failing field access or quantity parse) is
skipped without a shipment insert, and every fully valid row before or
after it in the batch still contributes exactly one shipment row — the
batch is never aborted. -/
theorem pathA_fault_isolation (s : DBState) (pre post : List RecordA)
    (bad : RecordA) (hbad : rowInserts bad = false) :
    (process_shipping_data_0 s (pre ++ bad :: post)).shipments.length
        = s.shipments.length + pre.countP rowInserts + post.countP rowInserts
    ∧ (processRow0 (process_shipping_data_0 s pre) bad).shipments
        = (process_shipping_data_0 s pre).shipments := by
  constructor
  · rw [process_shipping_data_0_length, List.countP_append, List.countP_cons,
      hbad]
    simp
    omega
  · exact processRow0_shipments_skip _ bad hbad

/-- Witness for C7: a non-numeric quantity row between two valid rows. -/
theorem pathA_fault_isolation_witness :
    (process_shipping_data_0 emptyState
        ([⟨Cell.val "A", QtyCell.num 1, Cell.val "W", Cell.val "S"⟩] ++
          ⟨Cell.val "B", QtyCell.bad, Cell.val "W", Cell.val "S"⟩ ::
          [⟨Cell.val "C", QtyCell.num 2, Cell.val "W", Cell.val "S"⟩])).shipments.length
        = emptyState.shipments.length
          + ([⟨Cell.val "A", QtyCell.num 1, Cell.val "W", Cell.val "S"⟩] :
              List RecordA).countP rowInserts
          + ([⟨Cell.val "C", QtyCell.num 2, Cell.val "W", Cell.val "S"⟩] :
              List RecordA).countP rowInserts
    ∧ (processRow0
          (process_shipping_data_0 emptyState
            [⟨Cell.val "A", QtyCell.num 1, Cell.val "W", Cell.val "S"⟩])
          ⟨Cell.val "B", QtyCell.bad, Cell.val "W", Cell.val "S"⟩).shipments
        = (process_shipping_data_0 emptyState
            [⟨Cell.val "A", QtyCell.num 1, Cell.val "W", Cell.val "S"⟩]).shipments :=
  pathA_fault_isolation emptyState
    [⟨Cell.val "A", QtyCell.num 1, Cell.val "W", Cell.val "S"⟩]
    [⟨Cell.val "C", QtyCell.num 2, Cell.val "W", Cell.val "S"⟩]
    ⟨Cell.val "B", QtyCell.bad, Cell.val "W", Cell.val "S"⟩ rfl

/-- Every aggregated tuple has quantity at least 1: its group key comes
from at least one Source-B row. -/
theorem shipment_products_quantity_pos (df1 : List RecordB) :
    ∀ t ∈ shipment_products df1, 1 ≤ t.2.2 := by
  intro t ht
  unfold shipment_products at ht
  rw [List.mem_map] at ht
  obtain ⟨k, hk, rfl⟩ := ht
  rw [List.mem_dedup, List.mem_map] at hk
  obtain ⟨r, hr, rfl⟩ := hk
  have hpos : 0 < df1.countP (fun r2 => r2.key == r.key) :=
    List.countP_pos_iff.mpr ⟨r, hr, by simp⟩
  simpa using hpos

/-- One Path-B tuple with positive count preserves positivity of all
stored shipment quantities. -/
theorem processTuple_quantity_pos (m : List (String × String × String))
    (s : DBState) (t : String × String × Nat)
    (hs : ∀ sh ∈ s.shipments, 1 ≤ sh.quantity) (ht : 1 ≤ t.2.2) :
    ∀ sh ∈ (processTuple m s t).shipments, 1 ≤ sh.quantity := by
  intro sh hsh
  rw [processTuple_eq] at hsh
  rcases List.mem_append.mp hsh with h1 | h2
  · exact hs sh h1
  · rw [List.mem_singleton] at h2
    subst h2
    simp only
    omega

/-- The whole Path-B tuple loop preserves positivity of all stored
shipment quantities, given positive tuple counts. -/
theorem foldTuples_quantity_pos (m : List (String × String × String))
    (ts : List (String × String × Nat)) (s : DBState)
    (hs : ∀ sh ∈ s.shipments, 1 ≤ sh.quantity)
    (hts : ∀ t ∈ ts, 1 ≤ t.2.2) :
    ∀ sh ∈ (ts.foldl (processTuple m) s).shipments, 1 ≤ sh.quantity := by
  induction ts generalizing s with
  | nil => exact hs
  | cons t ts2 ih =>
    exact ih (processTuple m s t)
      (processTuple_quantity_pos m s t hs (hts t (by simp)))
      (fun t2 h2 => hts t2 (List.mem_cons_of_mem t h2))

/-- C8 counterexample: Path A persists whatever integer the quantity field
parses to; a `product_quantity` of 0 produces a stored shipment row whose
quantity is not at least 1. -/
theorem shipment_quantity_not_always_positive :
    ¬ (∀ sh ∈ (process_shipping_data_0 emptyState
        [⟨Cell.val "Widget", QtyCell.num 0, Cell.val "W1", Cell.val "S1"⟩]).shipments,
        1 ≤ sh.quantity) := by
  decide

/-- C8 (amended): every shipment row persisted by Path B has quantity ≥ 1
(its quantities are group row counts); Path A offers no such guarantee,
since it stores the parsed input integer unchecked. -/
theorem pathB_shipment_quantity_pos (s : DBState) (df1 : List RecordB)
    (df2 : List RecordC) (s2 : DBState)
    (hs : ∀ sh ∈ s.shipments, 1 ≤ sh.quantity)
    (h : process_shipping_data_1_and_2 s df1 df2 = some s2) :
    ∀ sh ∈ s2.shipments, 1 ≤ sh.quantity := by
  unfold process_shipping_data_1_and_2 at h
  cases hrm : route_mapping df2 with
  | none => rw [hrm] at h; cases h
  | some m =>
    rw [hrm] at h
    simp only [Option.some.injEq] at h
    subst h
    exact foldTuples_quantity_pos m (shipment_products df1) s hs
      (shipment_products_quantity_pos df1)

/-- Witness for C8's amended theorem on one Source-B row with a route. -/
theorem pathB_shipment_quantity_pos_witness :
    (1 : Int) ≤ (Shipment.mk 1 1 "W" "D").quantity :=
  pathB_shipment_quantity_pos emptyState [⟨"S1", "G"⟩] [⟨"S1", "W", "D"⟩]
    (DBState.mk [(1, "G")] [Shipment.mk 1 1 "W" "D"] [("G", 1)] 2)
    (by intro sh hsh; cases hsh) (by decide)
    (Shipment.mk 1 1 "W" "D") (by decide)

/-- `x or 0` on a non-null fetched value is the value itself. -/
theorem pyOrZero_some (v : Int) : pyOrZero (some v) = v := by
  unfold pyOrZero
  by_cases h : v = 0
  · simp [h]
  · simp [h]

/-- C10: the validator reports total quantity 0 on an empty shipment table
(the NULL result of SUM is coerced by `or 0`), and the exact sum of all
shipment quantities on a non-empty table. -/
theorem validator_total_quantity (s : DBState) :
    (s.shipments = [] → reportedTotalQuantity s = 0)
    ∧ (s.shipments ≠ [] →
        reportedTotalQuantity s = (s.shipments.map Shipment.quantity).sum) := by
  constructor
  · intro h
    unfold reportedTotalQuantity sqlSumQuantity
    rw [h]
    rfl
  · intro h
    cases hs : s.shipments with
    | nil => exact absurd hs h
    | cons a l =>
      unfold reportedTotalQuantity sqlSumQuantity
      rw [hs]
      exact pyOrZero_some _

/-- Witness for C10 on the empty table and on a one-row table. -/
theorem validator_total_quantity_witness :
    reportedTotalQuantity emptyState = 0
    ∧ reportedTotalQuantity (DBState.mk [] [Shipment.mk 1 5 "W" "S"] [] 2)
        = (([Shipment.mk 1 5 "W" "S"]).map Shipment.quantity).sum :=
  ⟨(validator_total_quantity emptyState).1 rfl,
   (validator_total_quantity (DBState.mk [] [Shipment.mk 1 5 "W" "S"] [] 2)).2
     (by decide)⟩
